import Mathlib

/-!
# TokenTracker — verification of the aggregation pipeline

Shallow embedding of `src/unnamed/part_001` (the complete revision of
`tracker.ts`).  JavaScript `number` and BigNumber values are modelled as
exact rationals (`ℚ`); `bigint` raw amounts as integers; `undefined` /
absent fields as `Option`; a thrown-and-caught external call as `none` in
the environment record.  The pipeline `getTokenDetails` is a pure function
of an environment that fixes the outcome of each external call, returning
the result together with the list of network calls it issued.
-/

namespace TokenTracker

/-! ## BigNumber model

`bignumber.js` stores an exact decimal value.  We model a BigNumber as a
decimal coefficient together with a power-of-ten exponent; its value is
`c * 10 ^ e`.  The constructor from an integer string and `shiftedBy` are
exact, matching the library. -/

structure BigNum where
  c : ℤ
  e : ℤ
  deriving Repr, DecidableEq

/-- The exact rational value a BigNumber denotes. -/
def BigNum.val (b : BigNum) : ℚ :=
  (b.c : ℚ) * (10 : ℚ) ^ b.e

/-- `new BigNumber(n.toString())` for an integer `n`: exact. -/
def BigNum.ofInt (n : ℤ) : BigNum := ⟨n, 0⟩

/-- `BigNumber.prototype.shiftedBy(k)`: multiplies the value by `10^k`,
exactly, by adjusting the exponent. -/
def BigNum.shiftedBy (b : BigNum) (k : ℤ) : BigNum := ⟨b.c, b.e + k⟩

/-- `convertToDecimal` from `tracker.ts` line 19:
`new BigNumber(amount.toString()).shiftedBy(-decimals)`.
`amount` is a `bigint` (modelled as `ℤ`), `decimals` a non-negative
integer count of decimal places. -/
def convertToDecimal (amount : ℤ) (decimals : ℕ) : BigNum :=
  (BigNum.ofInt amount).shiftedBy (-(decimals : ℤ))

/-! ## `toFormat` — grouped decimal string

`BigNumber.prototype.toFormat()` with the default format: group separator
`,`, group size 3, decimal separator `.`, and the exact value printed with
no trailing fractional zeros.  The pipeline only formats non-negative
values with non-positive exponent (`convertToDecimal supply decimals`), so
the model covers that shape. -/

/-- Decimal digits of `n`, least significant first, via explicit fuel
(structural recursion, so the kernel can evaluate it). -/
def digitsRevAux : ℕ → ℕ → List Char
  | 0, _ => []
  | fuel + 1, n =>
    if n = 0 then []
    else Char.ofNat (48 + n % 10) :: digitsRevAux fuel (n / 10)

/-- Decimal digit string of `n`, most significant first. -/
def natDigitStr (n : ℕ) : List Char :=
  if n = 0 then ['0'] else (digitsRevAux (n + 1) n).reverse

/-- Insert a group separator after every 3 digits, walking the reversed
digit list. -/
def groupRevAux : List Char → ℕ → List Char
  | [], _ => []
  | [d], _ => [d]
  | d :: ds, k =>
    if k = 3 then d :: ',' :: groupRevAux ds 1
    else d :: groupRevAux ds (k + 1)

/-- Group a most-significant-first digit list in threes with `,`. -/
def groupDigits (ds : List Char) : List Char :=
  (groupRevAux ds.reverse 1).reverse

/-- Left-pad a digit list with `'0'` up to length `d`. -/
def padZeros (d : ℕ) (ds : List Char) : List Char :=
  List.replicate (d - ds.length) '0' ++ ds

/-- Drop trailing `'0'` characters. -/
def stripTrailingZeros (ds : List Char) : List Char :=
  (ds.reverse.dropWhile (· = '0')).reverse

/-- Format the exact value `c / 10 ^ d` (with `c, d : ℕ`): integer part
grouped in threes, fractional part to `d` places with trailing zeros
removed, omitted entirely when zero. -/
def formatScaled (c d : ℕ) : String :=
  let ip := groupDigits (natDigitStr (c / 10 ^ d))
  let fr := stripTrailingZeros (padZeros d (natDigitStr (c % 10 ^ d)))
  if fr = [] then ⟨ip⟩ else ⟨ip ++ '.' :: fr⟩

/-- `BigNumber.prototype.toFormat()` (default format), for the
non-negative, non-positive-exponent BigNumbers the pipeline produces. -/
def BigNum.toFormat (b : BigNum) : String :=
  formatScaled b.c.toNat (-b.e).toNat

/-! ## Data model of the pipeline

Outcomes of the external calls `getTokenDetails` makes are fixed by an
environment record; `none` models a call that throws (network failure,
missing account, malformed-enough body that a property access throws). -/

/-- Result of `getMint`: the on-chain mint account fields used. -/
structure MintInfo where
  decimals : ℕ
  supply : ℕ
  mintAuthority : Option String
  freezeAuthority : Option String
  deriving Repr, DecidableEq

/-- Result of `metaplex.nfts().findByMint`: the on-chain metadata record
fields read (`name`, `symbol`, `uri` are plain strings there). -/
structure MetaplexToken where
  name : String
  symbol : String
  uri : String
  deriving Repr, DecidableEq

/-- Body of the off-chain JSON document (`response.data`); each field may
be absent.  A well-formed response whose body lacks a field yields
`undefined` at the property access, i.e. `none` here. -/
structure JsonDoc where
  image : Option String
  name : Option String
  symbol : Option String
  deriving Repr, DecidableEq

/-- Body of the price endpoint response: `priceResponse.data?.data?.value`
collapsed to the optional numeric value at that path. -/
structure PriceResp where
  value : Option ℚ
  deriving Repr, DecidableEq

/-- Body of the overview endpoint response: the three optional fields read
at `overviewResponse.data?.data?.*`. -/
structure OverviewResp where
  liquidity : Option ℚ
  holders : Option ℚ
  volume24h : Option ℚ
  deriving Repr, DecidableEq

/-- One environment per request: whether `new PublicKey(addr)` succeeds
(address-format validation), and the outcome of each external call. -/
structure Env where
  validAddress : Bool
  mintResult : Option MintInfo
  metaplexResult : Option MetaplexToken
  jsonFetch : Option JsonDoc
  priceFetch : Option PriceResp
  overviewFetch : Option OverviewResp
  deriving Repr, DecidableEq

/-- The network calls the pipeline can issue, in order of appearance. -/
inductive NetCall where
  | getMintCall
  | findByMintCall
  | jsonFetchCall
  | priceCall
  | overviewCall
  deriving Repr, DecidableEq

/-- The composite result (`interface TokenDetails`), with the source's
field names; optional (`?:`) fields are `Option`. -/
structure TokenDetails where
  address : String
  name : String
  symbol : String
  imageURL : Option String
  decimals : ℕ
  totalSupply : String
  totalSupplyRaw : ℕ
  mintAuthority : Option String
  freezeAuthority : Option String
  price : Option ℚ
  marketcCap : Option ℚ
  liquidityUsd : Option ℚ
  holders : Option ℚ
  volume24h : Option ℚ
  deriving Repr, DecidableEq

/-! ## JavaScript truthiness helpers -/

/-- Truthiness of a `string | undefined` variable: `undefined` and `""`
are falsy. -/
def strTruthy : Option String → Bool
  | none => false
  | some s => s ≠ ""

/-- Truthiness of a `number | undefined` value: `undefined` and `0` are
falsy (NaN, the other falsy number, has no rational counterpart). -/
def numTruthy : Option ℚ → Bool
  | none => false
  | some q => q ≠ 0

/-- `x || dflt` on a `string | undefined` value. -/
def strOrElse (o : Option String) (dflt : String) : String :=
  if strTruthy o then o.getD dflt else dflt

/-! ## The Aggregator: `getTokenDetails` (part_001 lines 41–177)

Returns what the promise resolves to (`none` = `null`) paired with the
network calls issued.  `BigNumber.prototype.toNumber()` (line 129) is the
identity here: JS numbers are modelled as exact rationals, see the
header. -/

def getTokenDetails (env : Env) (mintAddress : String) :
    Option TokenDetails × List NetCall :=
  -- line 44: `new PublicKey(mintAddress)` throws on a malformed address;
  -- the outer catch (line 174) turns that into `null`, before any fetch.
  if ¬ env.validAddress then (none, [])
  else
    match env.mintResult with
    -- line 48: `getMint` threw → outer catch → `null`.
    | none => (none, [NetCall.getMintCall])
    | some mintInfo =>
      let decimals := mintInfo.decimals
      let totalSupplyRaw := mintInfo.supply
      let totalSupplyFormatted :=
        (convertToDecimal totalSupplyRaw decimals).toFormat
      -- lines 59–92: inner try around Metaplex + JSON fetch.
      let meta : Option String × Option String × Option String × List NetCall :=
        match env.metaplexResult with
        | none => (none, none, none, [NetCall.findByMintCall])
        | some tok =>
          let tokenName : Option String := some tok.name
          let tokenSymbol : Option String := some tok.symbol
          -- line 74: `if (metadataUri)`
          if tok.uri ≠ "" then
            match env.jsonFetch with
            | none =>
              (tokenName, tokenSymbol, none,
               [NetCall.findByMintCall, NetCall.jsonFetchCall])
            | some doc =>
              let tokenImageURL := doc.image
              -- lines 82–83: fill only falsy fields from the JSON body.
              let tokenName :=
                if ¬ strTruthy tokenName ∧ strTruthy doc.name
                then doc.name else tokenName
              let tokenSymbol :=
                if ¬ strTruthy tokenSymbol ∧ strTruthy doc.symbol
                then doc.symbol else tokenSymbol
              (tokenName, tokenSymbol, tokenImageURL,
               [NetCall.findByMintCall, NetCall.jsonFetchCall])
          else (tokenName, tokenSymbol, none, [NetCall.findByMintCall])
      let tokenName := meta.1
      let tokenSymbol := meta.2.1
      let tokenImageURL := meta.2.2.1
      -- lines 115–125: price endpoint, inner try; a falsy
      -- `data?.data?.value` leaves `price` unset.
      let price : Option ℚ :=
        match env.priceFetch with
        | none => none
        | some resp => if numTruthy resp.value then resp.value else none
      -- lines 128–131: market cap derived only when price was set.
      let marketCap : Option ℚ :=
        match price with
        | none => none
        | some p =>
          some ((convertToDecimal totalSupplyRaw decimals).val * p)
      -- lines 136–146: overview endpoint, inner try.
      let overview : Option ℚ × Option ℚ × Option ℚ :=
        match env.overviewFetch with
        | none => (none, none, none)
        | some o => (o.liquidity, o.holders, o.volume24h)
      -- lines 155–170: assemble the result.
      let result : TokenDetails :=
        { address := mintAddress
          name := strOrElse tokenName "N?A"
          symbol := strOrElse tokenSymbol "N/A"
          imageURL := tokenImageURL
          decimals := decimals
          totalSupply := totalSupplyFormatted
          totalSupplyRaw := totalSupplyRaw
          mintAuthority := mintInfo.mintAuthority
          freezeAuthority := mintInfo.freezeAuthority
          price := price
          marketcCap := marketCap
          liquidityUsd := overview.1
          holders := overview.2.1
          volume24h := overview.2.2 }
      (some result,
       NetCall.getMintCall :: meta.2.2.2
         ++ [NetCall.priceCall, NetCall.overviewCall])

/-! ## CLI shell: `main` (part_001 lines 180–206) -/

/-- Observable outcome of `main`. -/
inductive MainOutcome where
  | usageExit               -- missing argument → exit 1
  | invalidAddressExit      -- `new PublicKey` threw → exit 1
  | report (d : TokenDetails)
  | notFound
  deriving Repr, DecidableEq

/-- `main`: validates the CLI argument with `new PublicKey` before
invoking the pipeline; `getTokenDetails` only runs on a validated
address. -/
def mainModel (arg : Option String) (env : Env) :
    MainOutcome × List NetCall :=
  match arg with
  | none => (MainOutcome.usageExit, [])
  | some tokenAddress =>
    if ¬ env.validAddress then (MainOutcome.invalidAddressExit, [])
    else
      match getTokenDetails env tokenAddress with
      | (some d, calls) => (MainOutcome.report d, calls)
      | (none, calls) => (MainOutcome.notFound, calls)

/-! ## Concrete environments used by witnesses and counterexamples -/

/-- Mint lookup fails while every other source would succeed. -/
def envMintFail : Env :=
  ⟨true, none, some ⟨"Wrapped SOL", "SOL", "https://x/meta.json"⟩,
   some ⟨some "https://x/i.png", some "Wrapped SOL", some "SOL"⟩,
   some ⟨some 3⟩, some ⟨some 1, some 2, some 3⟩⟩

/-- Mint lookup succeeds, Metaplex lookup fails, market data succeeds. -/
def envMetaFail : Env :=
  ⟨true, some ⟨9, 1000000000, none, none⟩, none,
   some ⟨some "https://x/i.png", some "n", some "s"⟩,
   some ⟨some 3⟩, some ⟨some 1, some 2, some 3⟩⟩

/-- Price 5/2 with supply 10^12 at 6 decimals (decimal supply 10^6). -/
def envPrice : Env :=
  ⟨true, some ⟨6, 1000000000000, none, none⟩,
   some ⟨"Wrapped SOL", "SOL", "https://x/meta.json"⟩,
   some ⟨some "https://x/i.png", none, none⟩,
   some ⟨some (mkRat 5 2)⟩, none⟩

/-- The `TokenDetails` record the pipeline produces in `envPrice`. -/
def dPrice : TokenDetails :=
  { address := "addr", name := "Wrapped SOL", symbol := "SOL",
    imageURL := some "https://x/i.png", decimals := 6,
    totalSupply := "1,000,000", totalSupplyRaw := 1000000000000,
    mintAuthority := none, freezeAuthority := none,
    price := some (mkRat 5 2),
    marketcCap := some ((convertToDecimal 1000000000000 6).val * mkRat 5 2),
    liquidityUsd := none, holders := none, volume24h := none }

/-- On-chain metadata has empty name and symbol; the off-chain JSON
fetch fails. -/
def envEmptyOnChain : Env :=
  ⟨true, some ⟨9, 1000, none, none⟩, some ⟨"", "", "https://x/meta.json"⟩,
   none, none, none⟩

/-- On-chain metadata non-empty; the off-chain JSON fetch fails. -/
def envJsonFail : Env :=
  ⟨true, some ⟨9, 1000, none, none⟩,
   some ⟨"Wrapped SOL", "SOL", "https://x/meta.json"⟩, none, none, none⟩

/-- Both metadata layers succeed, with conflicting off-chain values. -/
def envBothLayers : Env :=
  ⟨true, some ⟨9, 1000, none, none⟩,
   some ⟨"Wrapped SOL", "SOL", "https://x/meta.json"⟩,
   some ⟨some "https://x/i.png", some "OffChainName", some "OFF"⟩,
   none, none⟩

/-- The address-format validation fails; every source would succeed. -/
def envBadAddress : Env :=
  ⟨false, some ⟨9, 1000, none, none⟩,
   some ⟨"Wrapped SOL", "SOL", "https://x/meta.json"⟩,
   some ⟨some "https://x/i.png", none, none⟩,
   some ⟨some 3⟩, some ⟨some 1, some 2, some 3⟩⟩

/-- The price endpoint responds but reports a zero value. -/
def envZeroPrice : Env :=
  ⟨true, some ⟨6, 1000000000000, none, none⟩, none, none,
   some ⟨some 0⟩, some ⟨some 1, some 2, some 3⟩⟩

/-- The `TokenDetails` record the pipeline produces in `envMetaFail`. -/
def dMetaFail : TokenDetails :=
  { address := "addr", name := "N?A", symbol := "N/A", imageURL := none,
    decimals := 9, totalSupply := "1", totalSupplyRaw := 1000000000,
    mintAuthority := none, freezeAuthority := none, price := some 3,
    marketcCap := some ((convertToDecimal 1000000000 9).val * 3),
    liquidityUsd := some 1, holders := some 2, volume24h := some 3 }

/-- The `TokenDetails` record the pipeline produces in `envJsonFail`. -/
def dJsonFail : TokenDetails :=
  { address := "addr", name := "Wrapped SOL", symbol := "SOL",
    imageURL := none, decimals := 9, totalSupply := "0.000001",
    totalSupplyRaw := 1000, mintAuthority := none, freezeAuthority := none,
    price := none, marketcCap := none, liquidityUsd := none, holders := none,
    volume24h := none }

/-- The `TokenDetails` record the pipeline produces in `envBothLayers`. -/
def dBothLayers : TokenDetails :=
  { address := "addr", name := "Wrapped SOL", symbol := "SOL",
    imageURL := some "https://x/i.png", decimals := 9,
    totalSupply := "0.000001", totalSupplyRaw := 1000,
    mintAuthority := none, freezeAuthority := none, price := none,
    marketcCap := none, liquidityUsd := none, holders := none,
    volume24h := none }

/-- The `TokenDetails` record the pipeline produces in `envZeroPrice`. -/
def dZeroPrice : TokenDetails :=
  { address := "addr", name := "N?A", symbol := "N/A", imageURL := none,
    decimals := 6, totalSupply := "1,000,000",
    totalSupplyRaw := 1000000000000, mintAuthority := none,
    freezeAuthority := none, price := none, marketcCap := none,
    liquidityUsd := some 1, holders := some 2, volume24h := some 3 }

end TokenTracker

namespace TokenTracker

/-! ## Shared lemmas -/

/-- `convertToDecimal` denotes exactly `amount / 10 ^ decimals`. -/
theorem convertToDecimal_val (amount : ℤ) (d : ℕ) :
    (convertToDecimal amount d).val = (amount : ℚ) / 10 ^ d := by
  simp [convertToDecimal, BigNum.ofInt, BigNum.shiftedBy, BigNum.val,
    zpow_neg, zpow_natCast, div_eq_mul_inv]

/-! ## Claims -/

/-- Claim C1: for every address, if the required on-chain mint lookup
(`getMint`) fails, `getTokenDetails` returns `null` rather than any
partial `TokenDetails`, whatever the other sources would have returned. -/
theorem getMint_failure_returns_null (env : Env) (addr : String)
    (hv : env.validAddress = true) (hm : env.mintResult = none) :
    (getTokenDetails env addr).1 = none := by
  simp [getTokenDetails, hv, hm]

/-- Claim C1, witness: a concrete run where only the mint lookup fails
still yields no result. -/
theorem getMint_failure_returns_null_witness :
    envMintFail.validAddress = true ∧ envMintFail.mintResult = none ∧
    (getTokenDetails envMintFail "So11111111111111111111111111111111111111112").1
      = none :=
  ⟨rfl, rfl, getMint_failure_returns_null envMintFail _ rfl rfl⟩

/-- Claim C2: for every non-negative arbitrary-precision raw amount and
decimal count, `convertToDecimal raw d` denotes exactly `raw / 10 ^ d`
(the arbitrary-precision reference value, no floating-point rounding);
in particular raw = 123456789012345678 at 9 decimals denotes exactly
123456789.012345678 = 123456789012345678 / 10^9. -/
theorem convertToDecimal_exact :
    (∀ (raw d : ℕ), (convertToDecimal raw d).val = (raw : ℚ) / 10 ^ d) ∧
    (convertToDecimal 123456789012345678 9).val
      = (123456789012345678 : ℚ) / 10 ^ 9 :=
  ⟨fun raw d => convertToDecimal_val raw d, convertToDecimal_val _ 9⟩

/-- Claim C3: in every returned `TokenDetails`, `marketcCap` is set iff
`price` is set, and when set it equals
`convertToDecimal(totalSupplyRaw, decimals) * price` (the code's
`convertToDecimal(totalSupplyRaw, decimals).multipliedBy(price)`). -/
theorem marketCap_iff_price (mi : MintInfo) (mr : Option MetaplexToken)
    (jf : Option JsonDoc) (pf : Option PriceResp) (ov : Option OverviewResp)
    (addr : String) (d : TokenDetails)
    (h : (getTokenDetails ⟨true, some mi, mr, jf, pf, ov⟩ addr).1 = some d) :
    (d.marketcCap.isSome ↔ d.price.isSome) ∧
    ∀ p, d.price = some p →
      d.marketcCap = some ((convertToDecimal d.totalSupplyRaw d.decimals).val * p) := by
  simp [getTokenDetails] at h
  subst h
  rcases pf with _ | ⟨v⟩
  · simp
  · rcases v with _ | q
    · simp [numTruthy]
    · by_cases hq : q = 0
      · simp [numTruthy, hq]
      · simp [numTruthy, hq]

/-- Claim C3, witness: price 5/2 and decimal supply 1,000,000 give
market cap 2,500,000. -/
theorem marketCap_iff_price_witness :
    (getTokenDetails envPrice "addr").1.map TokenDetails.price
      = some (some (5 / 2)) ∧
    (getTokenDetails envPrice "addr").1.map TokenDetails.marketcCap
      = some (some 2500000) := by
  have h : (getTokenDetails envPrice "addr").1 = some dPrice := by rfl
  have h2 := (marketCap_iff_price ⟨6, 1000000000000, none, none⟩ _ _ _ _
    "addr" dPrice h).2 (mkRat 5 2) rfl
  rw [h]
  constructor
  · simp only [Option.map_some', Option.some.injEq, dPrice]
    rw [Rat.mkRat_eq_div]
    norm_num
  · simp only [Option.map_some', Option.some.injEq]
    rw [h2]
    simp only [dPrice]
    rw [convertToDecimal_val, Rat.mkRat_eq_div]
    norm_num

/-- Claim C4 (amended): when the mint lookup succeeds but the Metaplex
lookup fails, `getTokenDetails` still returns a result whose name and
symbol are the sentinels `"N?A"` / `"N/A"` (not empty strings), whose
image is unset, and whose decimals / raw supply / formatted supply come
from the mint lookup; the metadata failure never propagates. -/
theorem metadata_failure_degraded (mi : MintInfo) (jf : Option JsonDoc)
    (pf : Option PriceResp) (ov : Option OverviewResp) (addr : String) :
    ((getTokenDetails ⟨true, some mi, none, jf, pf, ov⟩ addr).1).isSome = true ∧
    ∀ d, (getTokenDetails ⟨true, some mi, none, jf, pf, ov⟩ addr).1 = some d →
      d.name = "N?A" ∧ d.symbol = "N/A" ∧ d.imageURL = none ∧
      d.decimals = mi.decimals ∧ d.totalSupplyRaw = mi.supply ∧
      d.totalSupply = (convertToDecimal mi.supply mi.decimals).toFormat := by
  constructor
  · simp [getTokenDetails]
  · intro d h
    simp [getTokenDetails] at h
    subst h
    simp [strOrElse, strTruthy]

/-- Claim C4, witness: a concrete run with a failed Metaplex lookup
still yields a populated result with sentinel name. -/
theorem metadata_failure_degraded_witness :
    (getTokenDetails envMetaFail "addr").1.map TokenDetails.name = some "N?A" ∧
    (getTokenDetails envMetaFail "addr").1.map TokenDetails.imageURL
      = some none ∧
    (getTokenDetails envMetaFail "addr").1.map TokenDetails.decimals
      = some 9 ∧
    (getTokenDetails envMetaFail "addr").1.map TokenDetails.totalSupply
      = some "1" := by
  have h : (getTokenDetails envMetaFail "addr").1 = some dMetaFail := by rfl
  have h2 := (metadata_failure_degraded ⟨9, 1000000000, none, none⟩
    (some ⟨some "https://x/i.png", some "n", some "s"⟩)
    (some ⟨some 3⟩) (some ⟨some 1, some 2, some 3⟩) "addr").2 dMetaFail h
  rw [h]
  refine ⟨?_, ?_, ?_, ?_⟩ <;>
    simp only [Option.map_some', Option.some.injEq]
  · exact h2.1
  · exact h2.2.2.1
  · exact h2.2.2.2.1
  · exact h2.2.2.2.2.2

/-- Claim C4, counterexample: the claim as stated says name, symbol and
image are *empty*; at a concrete failed-Metaplex run the returned name is
the sentinel `"N?A"`, not the empty string. -/
theorem metadata_failure_empty_counterexample :
    (getTokenDetails envMetaFail "addr").1.map TokenDetails.name
      = some "N?A" ∧
    ¬ (getTokenDetails envMetaFail "addr").1.map TokenDetails.name
      = some "" := by
  have h : (getTokenDetails envMetaFail "addr").1.map TokenDetails.name
      = some "N?A" := by rfl
  exact ⟨h, by rw [h]; decide⟩

/-- Claim C5 (amended): when the on-chain descriptive lookup succeeds
but the off-chain JSON fetch fails or returns a malformed body, a
*non-empty* on-chain name or symbol is preserved unchanged; an empty
on-chain name or symbol is replaced by the sentinel `"N?A"` / `"N/A"` in
the final result; the image stays unset. -/
theorem json_failure_preserves_onchain (mi : MintInfo) (tok : MetaplexToken)
    (jf : Option JsonDoc) (pf : Option PriceResp) (ov : Option OverviewResp)
    (addr : String) (d : TokenDetails)
    (huri : tok.uri ≠ "")
    (hjf : jf = none ∨ jf = some ⟨none, none, none⟩)
    (h : (getTokenDetails ⟨true, some mi, some tok, jf, pf, ov⟩ addr).1
      = some d) :
    (tok.name ≠ "" → d.name = tok.name) ∧
    (tok.symbol ≠ "" → d.symbol = tok.symbol) ∧
    (tok.name = "" → d.name = "N?A") ∧
    (tok.symbol = "" → d.symbol = "N/A") ∧
    d.imageURL = none := by
  rcases hjf with hv | hv <;> subst hv <;>
    simp [getTokenDetails, huri] at h <;> subst h <;>
    refine ⟨fun hn => ?_, fun hs => ?_, fun hn => ?_, fun hs => ?_, ?_⟩ <;>
    simp [strOrElse, strTruthy, *]

/-- Claim C5, witness: non-empty on-chain name/symbol survive a failed
JSON fetch, and the image stays unset. -/
theorem json_failure_preserves_onchain_witness :
    (getTokenDetails envJsonFail "addr").1.map TokenDetails.name
      = some "Wrapped SOL" ∧
    (getTokenDetails envJsonFail "addr").1.map TokenDetails.symbol
      = some "SOL" ∧
    (getTokenDetails envJsonFail "addr").1.map TokenDetails.imageURL
      = some none := by
  have h : (getTokenDetails envJsonFail "addr").1 = some dJsonFail := by rfl
  have h2 := json_failure_preserves_onchain ⟨9, 1000, none, none⟩
    ⟨"Wrapped SOL", "SOL", "https://x/meta.json"⟩ none none none "addr"
    dJsonFail (by decide) (Or.inl rfl) h
  rw [h]
  refine ⟨?_, ?_, ?_⟩ <;> simp only [Option.map_some', Option.some.injEq]
  · exact h2.1 (by decide)
  · exact h2.2.1 (by decide)
  · exact h2.2.2.2.2

/-- Claim C5, counterexample: the claim as stated says the name obtained
on-chain is preserved *unchanged*; when the on-chain name is the empty
string and the JSON fetch fails, the returned name is the sentinel
`"N?A"`, not the on-chain value. -/
theorem json_failure_preserves_onchain_counterexample :
    envEmptyOnChain.metaplexResult.map MetaplexToken.name = some "" ∧
    (getTokenDetails envEmptyOnChain "addr").1.map TokenDetails.name
      = some "N?A" ∧
    ¬ (getTokenDetails envEmptyOnChain "addr").1.map TokenDetails.name
      = some "" := by
  have h : (getTokenDetails envEmptyOnChain "addr").1.map TokenDetails.name
      = some "N?A" := by rfl
  exact ⟨rfl, h, by rw [h]; decide⟩

/-- Claim C6: when both the on-chain descriptive lookup and the off-chain
JSON fetch succeed, a name or symbol that was non-empty after the
on-chain step is never overwritten by the off-chain JSON; the off-chain
document only fills fields the on-chain step left empty. -/
theorem offchain_fills_only_empty (mi : MintInfo) (tok : MetaplexToken)
    (doc : JsonDoc) (pf : Option PriceResp) (ov : Option OverviewResp)
    (addr : String) (d : TokenDetails)
    (huri : tok.uri ≠ "")
    (h : (getTokenDetails ⟨true, some mi, some tok, some doc, pf, ov⟩
      addr).1 = some d) :
    (tok.name ≠ "" → d.name = tok.name) ∧
    (tok.symbol ≠ "" → d.symbol = tok.symbol) ∧
    (∀ s, tok.name = "" → doc.name = some s → s ≠ "" → d.name = s) ∧
    (∀ s, tok.symbol = "" → doc.symbol = some s → s ≠ "" → d.symbol = s) := by
  simp [getTokenDetails, huri] at h
  subst h
  refine ⟨fun hn => ?_, fun hs => ?_, fun s hn hdoc hs => ?_,
    fun s hn hdoc hs => ?_⟩ <;> simp [strOrElse, strTruthy, *]

/-- Claim C6, witness: an off-chain document carrying a different name
does not overwrite the non-empty on-chain name. -/
theorem offchain_fills_only_empty_witness :
    envBothLayers.jsonFetch.map JsonDoc.name = some (some "OffChainName") ∧
    (getTokenDetails envBothLayers "addr").1.map TokenDetails.name
      = some "Wrapped SOL" ∧
    (getTokenDetails envBothLayers "addr").1.map TokenDetails.symbol
      = some "SOL" := by
  have h : (getTokenDetails envBothLayers "addr").1 = some dBothLayers := by
    rfl
  have h2 := offchain_fills_only_empty ⟨9, 1000, none, none⟩
    ⟨"Wrapped SOL", "SOL", "https://x/meta.json"⟩
    ⟨some "https://x/i.png", some "OffChainName", some "OFF"⟩ none none
    "addr" dBothLayers (by decide) h
  rw [h]
  refine ⟨rfl, ?_, ?_⟩ <;> simp only [Option.map_some', Option.some.injEq]
  · exact h2.1 (by decide)
  · exact h2.2.1 (by decide)

/-- Claim C7: mint info with 6 decimals and raw supply 10^12 produces
the grouped formatted total supply `"1,000,000"` in the returned
`TokenDetails`, whatever the other sources return. -/
theorem formatted_supply_grouped (ma fa : Option String)
    (mr : Option MetaplexToken) (jf : Option JsonDoc) (pf : Option PriceResp)
    (ov : Option OverviewResp) (addr : String) :
    ((getTokenDetails ⟨true, some ⟨6, 1000000000000, ma, fa⟩, mr, jf, pf, ov⟩
        addr).1).map TokenDetails.totalSupply = some "1,000,000" := by
  simp [getTokenDetails]
  rfl

/-- Claim C8: an address that fails the ledger's format validation makes
the pipeline signal failure immediately — `getTokenDetails` returns
`null` and `main` exits with the invalid-address error — and no network
call of any kind is issued. -/
theorem invalid_address_no_network (env : Env) (addr : String)
    (hv : env.validAddress = false) :
    getTokenDetails env addr = (none, []) ∧
    mainModel (some addr) env = (MainOutcome.invalidAddressExit, []) := by
  simp [getTokenDetails, mainModel, hv]

/-- Claim C8, witness: a concrete invalid address issues no network call
even though every source would have succeeded. -/
theorem invalid_address_no_network_witness :
    envBadAddress.validAddress = false ∧
    getTokenDetails envBadAddress "not-a-base58-address!" = (none, []) ∧
    mainModel (some "not-a-base58-address!") envBadAddress
      = (MainOutcome.invalidAddressExit, []) :=
  ⟨rfl, (invalid_address_no_network envBadAddress _ rfl).1,
   (invalid_address_no_network envBadAddress _ rfl).2⟩

/-- Claim C10: if the price endpoint responds but the nested
`data.data.value` is absent or zero (falsy), `price` and hence
`marketcCap` stay unset in the returned `TokenDetails`. -/
theorem falsy_price_leaves_unset (mi : MintInfo) (mr : Option MetaplexToken)
    (jf : Option JsonDoc) (v : Option ℚ) (ov : Option OverviewResp)
    (addr : String) (d : TokenDetails)
    (hfalsy : v = none ∨ v = some 0)
    (h : (getTokenDetails ⟨true, some mi, mr, jf, some ⟨v⟩, ov⟩ addr).1
      = some d) :
    d.price = none ∧ d.marketcCap = none := by
  rcases hfalsy with hv | hv <;> subst hv <;>
    simp [getTokenDetails, numTruthy] at h <;> subst h <;> simp [numTruthy]

/-- Claim C10, witness: a provider-reported zero price leaves price and
market cap unset. -/
theorem falsy_price_leaves_unset_witness :
    envZeroPrice.priceFetch.map PriceResp.value = some (some 0) ∧
    (getTokenDetails envZeroPrice "addr").1.map TokenDetails.price
      = some none ∧
    (getTokenDetails envZeroPrice "addr").1.map TokenDetails.marketcCap
      = some none := by
  have h : (getTokenDetails envZeroPrice "addr").1 = some dZeroPrice := by rfl
  have h2 := falsy_price_leaves_unset ⟨6, 1000000000000, none, none⟩ none none
    (some 0) (some ⟨some 1, some 2, some 3⟩) "addr" dZeroPrice (Or.inr rfl) h
  rw [h]
  exact ⟨rfl, by simp only [Option.map_some', Option.some.injEq]; exact h2.1,
    by simp only [Option.map_some', Option.some.injEq]; exact h2.2⟩

end TokenTracker
